import Mathlib

/-!
Verification of the Cloud Build configuration generator
(versioning/scripts/cloudbuild/main.go).

The Go program compiles a versions manifest (`versions.Spec`) plus a set of
command-line options into the data for a Cloud Build configuration:
`newCloudBuildTemplateData` produces a `cloudBuildTemplateData` value, and a
text template renders it into YAML steps.  This file is a shallow embedding of
that program:

* Go structs become Lean structures with the same fields;
* the pure helper functions (`shouldParallelize`, `readTests`, `filterTests`,
  `newCloudBuildTemplateData`) become Lean functions translated clause by
  clause from the Go source;
* `log.Fatalf` aborts and runtime panics (out-of-range indexing) are modelled
  by `Except String`: the whole compilation yields `.error` exactly when the
  Go process would die before printing a configuration;
* each block of the text template `cloudBuildTemplateString` is translated
  into a function from `cloudBuildTemplateData` to abstract rendered steps
  (`RenderedStep`), keeping the step name, arguments, `waitFor` list and `id`
  that the template emits and dropping only YAML comments and whitespace.

File-system interaction (`readTests` listing a directory) is parametrised by
the directory's entries: a missing or empty test directory is the empty entry
list, matching the Go code's `os.Stat` guard.
-/

namespace CloudBuild

/-- Model of the fields of `versions.Version` (package
`versioning/versions`, outside this repository's compiled sources) that
`main.go` reads: `Dir`, `Repo`, `Tags`, `Builder`, `BuilderImage`,
`BuilderArgs`, `ImageNameFromBuilder`, `ExcludeTests`. -/
structure Version where
  dir : String
  repo : String
  tags : List String
  builder : Bool
  builderImage : String
  builderArgs : List String
  imageNameFromBuilder : String
  excludeTests : List String
deriving DecidableEq

/-- Model of `versions.Spec`: the manifest is an ordered list of versions. -/
structure Spec where
  versions : List Version
deriving DecidableEq

/-- Go struct `cloudBuildOptions` of main.go. -/
structure cloudBuildOptions where
  directories : List String
  runTests : Bool
  requireNewTags : Bool
  firstTagOnly : Bool
  timeoutSeconds : Int
  machineType : String
  enableParallel : Bool
  forceParallel : Bool
deriving DecidableEq

/-- Go struct `imageBuildTemplateData` of main.go. -/
structure imageBuildTemplateData where
  directory : String
  tag : String
  aliases : List String
  structureTests : List String
  functionalTests : List String
  builder : Bool
  builderImage : String
  builderArgs : List String
  imageNameFromBuilder : String
deriving DecidableEq

/-- Go struct `cloudBuildTemplateData` of main.go. -/
structure cloudBuildTemplateData where
  requireNewTags : Bool
  parallel : Bool
  imageBuilds : List imageBuildTemplateData
  allImages : List String
  timeoutSeconds : Int
  machineType : String
deriving DecidableEq

/-- Go constant `testsDir`. -/
def testsDir : String := "tests"

/-- Go constant `functionalTestsDir`. -/
def functionalTestsDir : String := "tests/functional_tests"

/-- Go constant `structureTestsDir`. -/
def structureTestsDir : String := "tests/structure_tests"

/-- Go constant `testJsonSuffix`. -/
def testJsonSuffix : String := "_test.json"

/-- Go constant `testYamlSuffix`. -/
def testYamlSuffix : String := "_test.yaml"

/-- Go constant `workspacePrefix` (renamed here). -/
def workspacePref : String := "/workspace/"

/-- Go function `shouldParallelize` of main.go, lines 201 to 209. -/
def shouldParallelize (options : cloudBuildOptions)
    (numberOfVersions numberOfTests : Nat) : Bool :=
  if options.forceParallel then
    true
  else if !options.enableParallel then
    false
  else
    decide (numberOfVersions > 1) || decide (numberOfTests > 1)

/-- One entry of a directory listing, as `ioutil.ReadDir` reports it to
`readTests`: a file name and whether the entry is a subdirectory. -/
structure DirEntry where
  name : String
  isDir : Bool
deriving DecidableEq

/-- Go function `readTests` of main.go: keep the non-directory entries whose
name ends in one of the two test suffixes and prefix them with
`/workspace/<dir>/`.  The Go code first stats the directory and treats a
missing directory as empty; callers model that by passing `[]`. -/
def readTests (dir : String) (entries : List DirEntry) : List String :=
  (entries.filter fun f =>
      !f.isDir && (f.name.endsWith testJsonSuffix || f.name.endsWith testYamlSuffix)).map
    fun f => workspacePref ++ (dir ++ "/" ++ f.name)

/-- The `included` map manipulation of Go `filterTests`: walk the exclusion
list; if the map holds `false` (or no entry) for the resolved path
`/workspace/<name>`, die with `log.Fatalf`; otherwise set the entry to
`false` and continue.  The map is modelled as a `String → Bool` function. -/
def applyExclusions (inc : String → Bool) : List String → Except String (String → Bool)
  | [] => .ok inc
  | e :: rest =>
    if inc (workspacePref ++ e) then
      applyExclusions (fun t => if t == workspacePref ++ e then false else inc t) rest
    else
      .error ("No such test to exclude: " ++ e)

/-- Go function `filterTests` of main.go, lines 289 to 314: start from a map
sending every discovered test path to `true`, process the version's exclusion
list (fatal on an unknown exclusion), then keep, in order, the structure and
functional tests still marked included. -/
def filterTests (structureTests functionalTests : List String) (version : Version) :
    Except String (List String × List String) :=
  match applyExclusions (fun t => (structureTests ++ functionalTests).contains t)
      version.excludeTests with
  | .error e => .error e
  | .ok included =>
    .ok (structureTests.filter included, functionalTests.filter included)

/-- The image-name expansion of the tag loop in `newCloudBuildTemplateData`:
`fmt.Sprintf("%v/%v:%v", registry, v.Repo, t)`. -/
def mkImage (registry repo tag : String) : String :=
  registry ++ "/" ++ repo ++ ":" ++ tag

/-- The `images` list built by the tag loop of `newCloudBuildTemplateData`
(lines 243 to 250): one full name per tag, stopping after the first tag when
`FirstTagOnly` is set. -/
def imagesOf (registry : String) (options : cloudBuildOptions) (v : Version) :
    List String :=
  (if options.firstTagOnly then v.tags.take 1 else v.tags).map
    (mkImage registry v.repo)

/-- The body of one iteration of the version loop of
`newCloudBuildTemplateData` (lines 239 to 265) for a version already selected
by the directory filter.  It returns the names contributed to `AllImages`
(nothing for a builder version) together with the `imageBuildTemplateData`
entry.  The Go expression `images[0]` on an empty slice is a runtime panic,
modelled as `.error`; `filterTests` runs first, as in the source. -/
def compileVersion (registry : String) (options : cloudBuildOptions)
    (structureTests functionalTests : List String) (v : Version) :
    Except String (List String × imageBuildTemplateData) :=
  match filterTests structureTests functionalTests v with
  | .error e => .error e
  | .ok (versionSTests, versionFTests) =>
    let images := imagesOf registry options v
    let shippable := if !v.builder then images else []
    if v.builderImage ≠ "" then
      .ok (shippable,
        ⟨v.dir, v.imageNameFromBuilder, images, versionSTests, versionFTests,
          v.builder, registry ++ "/" ++ v.builderImage, v.builderArgs,
          v.imageNameFromBuilder⟩)
    else
      match images with
      | [] => .error "runtime error: index out of range"
      | image0 :: imagesRest =>
        .ok (shippable,
          ⟨v.dir, image0, imagesRest, versionSTests, versionFTests,
            v.builder, v.builderImage, v.builderArgs, v.imageNameFromBuilder⟩)

/-- The version loop of `newCloudBuildTemplateData` (lines 239 to 265):
versions outside the selected directory set are skipped; the others are
compiled in manifest order, accumulating `AllImages` and `ImageBuilds`. -/
def buildLoop (registry : String) (options : cloudBuildOptions)
    (structureTests functionalTests : List String) (dirs : String → Bool) :
    List Version → Except String (List String × List imageBuildTemplateData)
  | [] => .ok ([], [])
  | v :: rest =>
    if dirs v.dir then
      match compileVersion registry options structureTests functionalTests v with
      | .error e => .error e
      | .ok (contrib, step) =>
        match buildLoop registry options structureTests functionalTests dirs rest with
        | .error e => .error e
        | .ok (restImages, restSteps) =>
          .ok (contrib ++ restImages, step :: restSteps)
    else
      buildLoop registry options structureTests functionalTests dirs rest

/-- The directory-selection set of `newCloudBuildTemplateData` (lines 216 to
226): the option's directories when that list is non-empty, otherwise every
directory appearing in the manifest. -/
def selectedDirs (spec : Spec) (options : cloudBuildOptions) : String → Bool :=
  if 0 < options.directories.length then
    fun d => options.directories.contains d
  else
    fun d => (spec.versions.map Version.dir).contains d

/-- The `structureTests` list of `newCloudBuildTemplateData` (lines 229 to
236): legacy tests from `tests/` followed by `tests/structure_tests/`, and
empty when `RunTests` is off. -/
def catalogStructureTests (options : cloudBuildOptions)
    (testsEntries structureTestsEntries : List DirEntry) : List String :=
  if options.runTests then
    readTests testsDir testsEntries ++ readTests structureTestsDir structureTestsEntries
  else
    []

/-- The `functionalTests` list of `newCloudBuildTemplateData` (lines 229 to
236): tests from `tests/functional_tests/`, empty when `RunTests` is off. -/
def catalogFunctionalTests (options : cloudBuildOptions)
    (functionalTestsEntries : List DirEntry) : List String :=
  if options.runTests then readTests functionalTestsDir functionalTestsEntries else []

/-- Go function `newCloudBuildTemplateData` of main.go, lines 211 to 271,
parametrised by the directory listings that `readTests` would read.  The
result is `.error` exactly when the Go function would abort (a
`log.Fatalf` inside `filterTests` or the `images[0]` panic). -/
def newCloudBuildTemplateData (registry : String) (spec : Spec)
    (options : cloudBuildOptions)
    (testsEntries structureTestsEntries functionalTestsEntries : List DirEntry) :
    Except String cloudBuildTemplateData :=
  let structureTests := catalogStructureTests options testsEntries structureTestsEntries
  let functionalTests := catalogFunctionalTests options functionalTestsEntries
  match buildLoop registry options structureTests functionalTests
      (selectedDirs spec options) spec.versions with
  | .error e => .error e
  | .ok (allImages, imageBuilds) =>
    .ok
      { requireNewTags := options.requireNewTags
        parallel := shouldParallelize options spec.versions.length functionalTests.length
        imageBuilds := imageBuilds
        allImages := allImages
        timeoutSeconds := options.timeoutSeconds
        machineType := options.machineType }

/-- One rendered Cloud Build step, as the text template
`cloudBuildTemplateString` emits it: builder name, argument list, optional
`waitFor` list and optional `id`.  (`waitFor` and `id` lines are emitted only
under `$parallel`.) -/
structure RenderedStep where
  name : String
  args : List String
  waitFor : Option (List String)
  id : Option String
deriving DecidableEq

/-- The scheduling identifier the template gives the build step of an image
tag: `id: 'image-<tag>'`. -/
def schedulingId (tag : String) : String := "image-" ++ tag

/-- The `# Build images` block of `cloudBuildTemplateString` (lines 60 to 91)
for one `ImageBuilds` entry.  A `.Builder` entry and an entry with no
`.BuilderImage` are plain docker builds with `waitFor: ['-']` under parallel;
only a non-builder entry with a `.BuilderImage` invokes the builder image and
waits on `image-<BuilderImage>`. -/
def renderBuildStep (parallel : Bool) (b : imageBuildTemplateData) : RenderedStep :=
  if b.builder then
    ⟨"gcr.io/cloud-builders/docker", ["build", "--tag=" ++ b.tag, b.directory],
      if parallel then some ["-"] else none,
      if parallel then some (schedulingId b.tag) else none⟩
  else if b.builderImage ≠ "" then
    ⟨b.builderImage, b.builderArgs,
      if parallel then some [schedulingId b.builderImage] else none,
      if parallel then some (schedulingId b.tag) else none⟩
  else
    ⟨"gcr.io/cloud-builders/docker", ["build", "--tag=" ++ b.tag, b.directory],
      if parallel then some ["-"] else none,
      if parallel then some (schedulingId b.tag) else none⟩

/-- All build steps (template lines 60 to 91), one per `ImageBuilds` entry in
order. -/
def buildSteps (d : cloudBuildTemplateData) : List RenderedStep :=
  d.imageBuilds.map (renderBuildStep d.parallel)

/-- The `# Run structure tests` block (template lines 93 to 107): one step
per structure test of each image, with no `waitFor` and no `id` even under
parallel scheduling. -/
def structureTestSteps (d : cloudBuildTemplateData) : List RenderedStep :=
  d.imageBuilds.flatMap fun b =>
    b.structureTests.map fun t =>
      ⟨"gcr.io/gcp-runtimes/structure_test", ["--image", b.tag, "--config", t],
        none, none⟩

/-- The identifier the template gives the `testIndex`-th functional test step
of the image whose primary tag is `primary`: `id: 'test-<primary>-<index>'`. -/
def testStepId (primary : String) (testIndex : Nat) : String :=
  "test-" ++ primary ++ "-" ++ toString testIndex

/-- The `# Run functional tests` block (template lines 109 to 131): one step
per functional test of each image; under parallel scheduling it waits on the
image's build step and carries id `test-<primary>-<testIndex>`. -/
def functionalTestSteps (d : cloudBuildTemplateData) : List RenderedStep :=
  d.imageBuilds.enum.flatMap fun p =>
    p.2.functionalTests.enum.map fun q =>
      ⟨"gcr.io/$PROJECT_ID/functional_test",
        ["--verbose", "--vars", "IMAGE=" ++ p.2.tag, "--vars",
          "UNIQUE=" ++ toString p.1 ++ "-" ++ toString q.1, "--test_spec", q.2],
        if d.parallel then some [schedulingId p.2.tag] else none,
        if d.parallel then some (testStepId p.2.tag q.1) else none⟩

/-- Every test step the template emits, structure tests first as in the
template. -/
def testSteps (d : cloudBuildTemplateData) : List RenderedStep :=
  structureTestSteps d ++ functionalTestSteps d

/-- The `# Add alias tags` block (template lines 133 to 150): one
`docker tag` step per alias of each image; under parallel scheduling it waits
on the image's build step and on each of the image's functional test step
identifiers (and on nothing else). -/
def aliasSteps (d : cloudBuildTemplateData) : List RenderedStep :=
  d.imageBuilds.flatMap fun b =>
    b.aliases.map fun a =>
      ⟨"gcr.io/cloud-builders/docker", ["tag", b.tag, a],
        if d.parallel then
          some (schedulingId b.tag ::
            (List.range b.functionalTests.length).map (testStepId b.tag))
        else
          none,
        none⟩

/-- The `timeout:` line (template lines 157 to 160): emitted only when
`TimeoutSeconds` is not 0. -/
def emittedTimeout (d : cloudBuildTemplateData) : Option String :=
  if d.timeoutSeconds = 0 then none else some (toString d.timeoutSeconds ++ "s")

/-- The `options: machineType:` block (template lines 162 to 170): under
parallel scheduling always `E2_HIGHCPU_8`; otherwise the supplied machine
type when non-empty, else nothing. -/
def emittedMachineType (d : cloudBuildTemplateData) : Option String :=
  if d.parallel then
    some "E2_HIGHCPU_8"
  else if d.machineType ≠ "" then
    some d.machineType
  else
    none

/-! ### Concrete manifests, options and plans used as test inputs -/

/-- A plain one-tag version in directory `a`. -/
def vW1a : Version := ⟨"a", "foo", ["1.0"], false, "", [], "", []⟩

/-- A plain one-tag version in directory `b`. -/
def vW1b : Version := ⟨"b", "bar", ["1.0"], false, "", [], "", []⟩

/-- A two-version manifest. -/
def specW1 : Spec := ⟨[vW1a, vW1b]⟩

/-- Options with only `enable_parallel` set. -/
def optsW1 : cloudBuildOptions := ⟨[], false, false, false, 0, "", true, false⟩

/-- The plan compiled from `specW1` with `optsW1` at registry `gcr.io/proj`. -/
def dW1 : cloudBuildTemplateData :=
  ⟨false, true,
    [⟨"a", "gcr.io/proj/foo:1.0", [], [], [], false, "", [], ""⟩,
     ⟨"b", "gcr.io/proj/bar:1.0", [], [], [], false, "", [], ""⟩],
    ["gcr.io/proj/foo:1.0", "gcr.io/proj/bar:1.0"], 0, ""⟩

/-- A version excluding the nonexistent test `C`. -/
def vW2 : Version := ⟨"a", "foo", ["1.0"], false, "", [], "", ["C"]⟩

/-- Manifest holding only `vW2`. -/
def specW2 : Spec := ⟨[vW2]⟩

/-- Default options (no directory filter, tests off). -/
def optsW2 : cloudBuildOptions := ⟨[], false, false, false, 0, "", false, false⟩

/-- A version in directory `a` excluding the nonexistent test `C`. -/
def vC2 : Version := ⟨"a", "foo", ["1.0"], false, "", [], "", ["C"]⟩

/-- Manifest holding only `vC2`. -/
def specC2 : Spec := ⟨[vC2]⟩

/-- Options whose directory filter selects only directory `b`. -/
def optsC2 : cloudBuildOptions := ⟨["b"], false, false, false, 0, "", false, false⟩

/-- The (empty) plan compiled from `specC2` with `optsC2`. -/
def dC2 : cloudBuildTemplateData := ⟨false, false, [], [], 0, ""⟩

/-- A builder-only version. -/
def vW3 : Version := ⟨"a", "foo", ["1.0"], true, "", [], "", []⟩

/-- Manifest holding only the builder-only `vW3`. -/
def specW3 : Spec := ⟨[vW3]⟩

/-- Default options. -/
def optsW3 : cloudBuildOptions := ⟨[], false, false, false, 0, "", false, false⟩

/-- The plan compiled from `specW3`: a build step but no shippable image. -/
def dW3 : cloudBuildTemplateData :=
  ⟨false, false, [⟨"a", "gcr.io/proj/foo:1.0", [], [], [], true, "", [], ""⟩],
    [], 0, ""⟩

/-- A builder-only version in directory `a`. -/
def vC3 : Version := ⟨"a", "foo", ["1.0"], true, "", [], "", []⟩

/-- Manifest holding only the builder-only `vC3`. -/
def specC3 : Spec := ⟨[vC3]⟩

/-- Options whose directory filter selects only directory `b`. -/
def optsC3 : cloudBuildOptions := ⟨["b"], false, false, false, 0, "", false, false⟩

/-- The (empty) plan compiled from `specC3` with `optsC3`. -/
def dC3 : cloudBuildTemplateData := ⟨false, false, [], [], 0, ""⟩

/-- A two-directory manifest. -/
def specW4 : Spec :=
  ⟨[⟨"a", "foo", ["1.0"], false, "", [], "", []⟩,
    ⟨"b", "bar", ["1.0"], false, "", [], "", []⟩]⟩

/-- Options selecting only directory `b`. -/
def optsW4 : cloudBuildOptions := ⟨["b"], false, false, false, 0, "", false, false⟩

/-- The plan compiled from `specW4` with `optsW4`. -/
def dW4 : cloudBuildTemplateData :=
  ⟨false, false, [⟨"b", "gcr.io/proj/bar:1.0", [], [], [], false, "", [], ""⟩],
    ["gcr.io/proj/bar:1.0"], 0, ""⟩

/-- A non-builder version declaring a builder-image reference. -/
def vW5 : Version := ⟨"a", "foo", ["1.0"], false, "x/base", [], "gcr.io/proj/built", []⟩

/-- Options with `force_parallel` set. -/
def optsW5 : cloudBuildOptions := ⟨[], false, false, false, 0, "", false, true⟩

/-- The step compiled from `vW5`. -/
def bW5 : imageBuildTemplateData :=
  ⟨"a", "gcr.io/proj/built", ["gcr.io/proj/foo:1.0"], [], [], false,
    "gcr.io/proj/x/base", [], "gcr.io/proj/built"⟩

/-- A parallel plan containing `bW5`. -/
def dW5 : cloudBuildTemplateData :=
  ⟨false, true, [bW5], ["gcr.io/proj/foo:1.0"], 0, ""⟩

/-- A builder-flagged version that also declares a builder-image reference. -/
def vC5 : Version := ⟨"a", "foo", ["1.0"], true, "x/base", [], "gcr.io/proj/built", []⟩

/-- Options with `force_parallel` set. -/
def optsC5 : cloudBuildOptions := ⟨[], false, false, false, 0, "", false, true⟩

/-- The step compiled from `vC5`: tagged from the builder-derived name but
still flagged `builder`. -/
def bC5 : imageBuildTemplateData :=
  ⟨"a", "gcr.io/proj/built", ["gcr.io/proj/foo:1.0"], [], [], true,
    "gcr.io/proj/x/base", [], "gcr.io/proj/built"⟩

/-- A two-tag version with no builder image. -/
def vW6 : Version := ⟨"a", "foo", ["1.0", "latest"], false, "", [], "", []⟩

/-- Options with `first_tag` set. -/
def optsW6 : cloudBuildOptions := ⟨[], false, false, true, 0, "", false, false⟩

/-- A version with an empty tag list but a builder-image reference. -/
def vC6 : Version := ⟨"a", "foo", [], false, "x/base", [], "gcr.io/proj/built", []⟩

/-- Options with `first_tag` set. -/
def optsC6 : cloudBuildOptions := ⟨[], false, false, true, 0, "", false, false⟩

/-- The step compiled from `vC6`: produced, but expanding zero names. -/
def bC6 : imageBuildTemplateData :=
  ⟨"a", "gcr.io/proj/built", [], [], [], false, "gcr.io/proj/x/base", [],
    "gcr.io/proj/built"⟩

/-- A version excluding catalog test `tests/a_test.yaml`. -/
def vW7 : Version := ⟨"a", "foo", ["1.0"], false, "", [], "", ["tests/a_test.yaml"]⟩

/-- A two-element structure-test catalog. -/
def sTW7 : List String :=
  ["/workspace/tests/a_test.yaml", "/workspace/tests/b_test.yaml"]

/-- A one-element functional-test catalog. -/
def fTW7 : List String := ["/workspace/tests/functional_tests/f_test.yaml"]

/-- An image with one alias and one functional test. -/
def bW8 : imageBuildTemplateData :=
  ⟨"a", "gcr.io/proj/foo:1.0", ["gcr.io/proj/foo:latest"], [],
    ["/workspace/tests/functional_tests/f_test.yaml"], false, "", [], ""⟩

/-- A parallel plan containing `bW8`. -/
def dW8 : cloudBuildTemplateData :=
  ⟨false, true, [bW8], ["gcr.io/proj/foo:1.0", "gcr.io/proj/foo:latest"], 0, ""⟩

/-- An image with one alias and one structure test (and no functional test). -/
def bC8 : imageBuildTemplateData :=
  ⟨"a", "p", ["q"], ["/workspace/tests/s_test.yaml"], [], false, "", [], ""⟩

/-- A parallel plan containing `bC8`. -/
def dC8 : cloudBuildTemplateData := ⟨false, true, [bC8], ["p", "q"], 0, ""⟩

/-- The structure-test step the template emits for `bC8`. -/
def stC8 : RenderedStep :=
  ⟨"gcr.io/gcp-runtimes/structure_test",
    ["--image", "p", "--config", "/workspace/tests/s_test.yaml"], none, none⟩

/-- A one-version manifest. -/
def specW9 : Spec := ⟨[⟨"a", "foo", ["1.0"], false, "", [], "", []⟩]⟩

/-- Options supplying a machine type while forcing parallel mode. -/
def optsW9 : cloudBuildOptions :=
  ⟨[], false, false, false, 0, "N1_HIGHCPU_8", false, true⟩

/-- The plan compiled from `specW9` with `optsW9`. -/
def dW9 : cloudBuildTemplateData :=
  ⟨false, true, [⟨"a", "gcr.io/proj/foo:1.0", [], [], [], false, "", [], ""⟩],
    ["gcr.io/proj/foo:1.0"], 0, "N1_HIGHCPU_8"⟩

/-- A version with no tags and no builder image. -/
def vW10 : Version := ⟨"a", "foo", [], false, "", [], "", []⟩

/-- Default options. -/
def optsW10 : cloudBuildOptions := ⟨[], false, false, false, 0, "", false, false⟩

/-! ### Helper lemmas about the test resolver -/

theorem applyExclusions_ok :
    ∀ (exs : List String) (inc inc' : String → Bool),
      applyExclusions inc exs = .ok inc' →
      ∀ t, inc' t = (inc t && !(exs.any fun e => workspacePref ++ e == t)) := by
  intro exs
  induction exs with
  | nil =>
    intro inc inc' h t
    simp only [applyExclusions] at h
    cases h
    simp
  | cons e rest ih =>
    intro inc inc' h t
    simp only [applyExclusions] at h
    split at h
    · have hrec := ih _ _ h t
      rw [hrec]
      by_cases ht : (workspacePref ++ e) = t
      · subst ht
        simp
      · have hbeq : (t == workspacePref ++ e) = false := by
          simp [beq_eq_false_iff_ne]
          exact fun hc => ht hc.symm
        have hbeq2 : ((workspacePref ++ e) == t) = false := by
          simp [beq_eq_false_iff_ne]
          exact ht
        simp [hbeq, hbeq2]
    · cases h

theorem applyExclusions_stale :
    ∀ (exs : List String) (inc : String → Bool) (e : String),
      e ∈ exs → inc (workspacePref ++ e) = false →
      ∃ msg, applyExclusions inc exs = .error msg := by
  intro exs
  induction exs with
  | nil =>
    intro inc e hmem
    cases hmem
  | cons e0 rest ih =>
    intro inc e hmem hfalse
    rcases List.mem_cons.mp hmem with heq | hmem2
    · subst heq
      refine ⟨"No such test to exclude: " ++ e, ?_⟩
      simp only [applyExclusions, hfalse]
      simp
    · by_cases h0 : inc (workspacePref ++ e0) = true
      · obtain ⟨msg, hmsg⟩ :=
          ih (fun t => if t == workspacePref ++ e0 then false else inc t) e hmem2 (by
            by_cases hsame : (workspacePref ++ e) = (workspacePref ++ e0)
            · simp [hsame]
            · simpa [hsame] using hfalse)
        exact ⟨msg, by simp only [applyExclusions, h0, if_true]; exact hmsg⟩
      · refine ⟨"No such test to exclude: " ++ e0, ?_⟩
        simp only [applyExclusions, Bool.not_eq_true] at h0 ⊢
        simp [h0]

/-- The predicate "this catalog path is not named by the version's exclusion
list" (exclusion names resolve to `/workspace/<name>`). -/
def notExcluded (version : Version) (t : String) : Bool :=
  !(version.excludeTests.any fun e => workspacePref ++ e == t)

theorem filterTests_ok (sT fT : List String) (v : Version) (oS oF : List String)
    (h : filterTests sT fT v = .ok (oS, oF)) :
    oS = sT.filter (notExcluded v) ∧ oF = fT.filter (notExcluded v) := by
  unfold filterTests at h
  split at h
  · cases h
  case h_2 included heq =>
    cases h
    have hchar := applyExclusions_ok _ _ _ heq
    constructor
    · apply List.filter_congr
      intro t ht
      rw [hchar t]
      have : (sT ++ fT).contains t = true :=
        List.elem_iff.mpr (List.mem_append_left _ ht)
      simp only [this, Bool.true_and, notExcluded]
    · apply List.filter_congr
      intro t ht
      rw [hchar t]
      have : (sT ++ fT).contains t = true :=
        List.elem_iff.mpr (List.mem_append_right _ ht)
      simp only [this, Bool.true_and, notExcluded]

theorem filterTests_stale (sT fT : List String) (v : Version) (e : String)
    (hmem : e ∈ v.excludeTests)
    (habs : (workspacePref ++ e) ∉ sT ++ fT) :
    ∃ msg, filterTests sT fT v = .error msg := by
  have hfalse : (sT ++ fT).contains (workspacePref ++ e) = false := by
    rw [← Bool.not_eq_true]
    intro hc
    exact habs (List.elem_iff.mp hc)
  obtain ⟨msg, hmsg⟩ :=
    applyExclusions_stale v.excludeTests
      (fun t => (sT ++ fT).contains t) e hmem hfalse
  exact ⟨msg, by unfold filterTests; rw [hmsg]⟩

theorem filterTests_noExclusions (sT fT : List String) (v : Version)
    (h : v.excludeTests = []) : filterTests sT fT v = .ok (sT, fT) := by
  unfold filterTests
  rw [h]
  simp only [applyExclusions]
  have hs : sT.filter (fun t => (sT ++ fT).contains t) = sT := by
    rw [List.filter_eq_self]
    intro t ht
    exact List.elem_iff.mpr (List.mem_append_left _ ht)
  have hf : fT.filter (fun t => (sT ++ fT).contains t) = fT := by
    rw [List.filter_eq_self]
    intro t ht
    exact List.elem_iff.mpr (List.mem_append_right _ ht)
  rw [hs, hf]

/-! ### Helper lemmas about the per-version compilation step -/

theorem compileVersion_ok (registry : String) (options : cloudBuildOptions)
    (sT fT : List String) (v : Version) (contrib : List String)
    (step : imageBuildTemplateData)
    (h : compileVersion registry options sT fT v = .ok (contrib, step)) :
    step.directory = v.dir ∧ step.builder = v.builder ∧
      contrib = (if !v.builder then imagesOf registry options v else []) := by
  unfold compileVersion at h
  cases hft : filterTests sT fT v with
  | error e =>
    rw [hft] at h
    exact Except.noConfusion h
  | ok p =>
    obtain ⟨vS, vF⟩ := p
    rw [hft] at h
    dsimp only at h
    by_cases hbi : v.builderImage = ""
    · rw [if_neg (not_not_intro hbi)] at h
      cases himg : imagesOf registry options v with
      | nil =>
        rw [himg] at h
        exact Except.noConfusion h
      | cons image0 imagesRest =>
        rw [himg] at h
        simp only [Except.ok.injEq, Prod.mk.injEq] at h
        obtain ⟨hc, hs⟩ := h
        subst hc
        subst hs
        exact ⟨rfl, rfl, by simp [himg]⟩
    · rw [if_pos hbi] at h
      simp only [Except.ok.injEq, Prod.mk.injEq] at h
      obtain ⟨hc, hs⟩ := h
      subst hc
      subst hs
      exact ⟨rfl, rfl, rfl⟩

theorem compileVersion_ok_builderImage (registry : String)
    (options : cloudBuildOptions) (sT fT : List String) (v : Version)
    (contrib : List String) (step : imageBuildTemplateData)
    (hbi : v.builderImage ≠ "")
    (h : compileVersion registry options sT fT v = .ok (contrib, step)) :
    step.tag = v.imageNameFromBuilder ∧
      step.builderImage = registry ++ "/" ++ v.builderImage ∧
      step.aliases = imagesOf registry options v := by
  unfold compileVersion at h
  cases hft : filterTests sT fT v with
  | error e =>
    rw [hft] at h
    exact Except.noConfusion h
  | ok p =>
    obtain ⟨vS, vF⟩ := p
    rw [hft] at h
    dsimp only at h
    rw [if_pos hbi] at h
    simp only [Except.ok.injEq, Prod.mk.injEq] at h
    obtain ⟨hc, hs⟩ := h
    subst hc
    subst hs
    exact ⟨rfl, rfl, rfl⟩

theorem compileVersion_ok_noBuilderImage (registry : String)
    (options : cloudBuildOptions) (sT fT : List String) (v : Version)
    (contrib : List String) (step : imageBuildTemplateData)
    (hbi : v.builderImage = "")
    (h : compileVersion registry options sT fT v = .ok (contrib, step)) :
    ∃ image0 imagesRest, imagesOf registry options v = image0 :: imagesRest ∧
      step.tag = image0 ∧ step.aliases = imagesRest ∧ step.builderImage = "" := by
  unfold compileVersion at h
  cases hft : filterTests sT fT v with
  | error e =>
    rw [hft] at h
    exact Except.noConfusion h
  | ok p =>
    obtain ⟨vS, vF⟩ := p
    rw [hft] at h
    dsimp only at h
    rw [if_neg (not_not_intro hbi)] at h
    cases himg : imagesOf registry options v with
    | nil =>
      rw [himg] at h
      exact Except.noConfusion h
    | cons image0 imagesRest =>
      rw [himg] at h
      simp only [Except.ok.injEq, Prod.mk.injEq] at h
      obtain ⟨hc, hs⟩ := h
      subst hc
      subst hs
      exact ⟨image0, imagesRest, rfl, rfl, rfl, hbi⟩

theorem compileVersion_emptyTags (registry : String)
    (options : cloudBuildOptions) (sT fT : List String) (v : Version)
    (p : List String × List String)
    (hbi : v.builderImage = "") (htags : v.tags = [])
    (hft : filterTests sT fT v = .ok p) :
    compileVersion registry options sT fT v =
      .error "runtime error: index out of range" := by
  have himg : imagesOf registry options v = [] := by
    unfold imagesOf
    rw [htags]
    cases options.firstTagOnly <;> simp
  obtain ⟨pS, pF⟩ := p
  unfold compileVersion
  rw [hft]
  dsimp only
  rw [if_neg (not_not_intro hbi), himg]

/-! ### Helper lemmas about the version loop -/

theorem buildLoop_ok_directories (registry : String) (options : cloudBuildOptions)
    (sT fT : List String) (dirs : String → Bool) :
    ∀ (vs : List Version) (ai : List String) (steps : List imageBuildTemplateData),
      buildLoop registry options sT fT dirs vs = .ok (ai, steps) →
      steps.map imageBuildTemplateData.directory =
        (vs.filter fun v => dirs v.dir).map Version.dir := by
  intro vs
  induction vs with
  | nil =>
    intro ai steps h
    simp only [buildLoop] at h
    cases h
    simp
  | cons v rest ih =>
    intro ai steps h
    simp only [buildLoop] at h
    by_cases hd : dirs v.dir = true
    · rw [if_pos hd] at h
      split at h
      · cases h
      next contrib step hcv =>
        split at h
        · cases h
        next restImages restSteps hrec =>
          cases h
          have hstep := (compileVersion_ok _ _ _ _ _ _ _ hcv).1
          simp only [List.map_cons, hstep, List.filter_cons, hd, if_true, ih _ _ hrec]
    · rw [if_neg hd] at h
      have := ih _ _ h
      simp only [Bool.not_eq_true] at hd
      simp [List.filter_cons, hd, this]

theorem buildLoop_ok_allImages (registry : String) (options : cloudBuildOptions)
    (sT fT : List String) (dirs : String → Bool) :
    ∀ (vs : List Version) (ai : List String) (steps : List imageBuildTemplateData),
      buildLoop registry options sT fT dirs vs = .ok (ai, steps) →
      ai = (vs.filter fun v => dirs v.dir && !v.builder).flatMap
        (imagesOf registry options) := by
  intro vs
  induction vs with
  | nil =>
    intro ai steps h
    simp only [buildLoop] at h
    cases h
    simp
  | cons v rest ih =>
    intro ai steps h
    simp only [buildLoop] at h
    by_cases hd : dirs v.dir = true
    · rw [if_pos hd] at h
      split at h
      · cases h
      next contrib step hcv =>
        split at h
        · cases h
        next restImages restSteps hrec =>
          cases h
          have hc := (compileVersion_ok _ _ _ _ _ _ _ hcv).2.2
          rw [ih _ _ hrec, hc]
          by_cases hb : v.builder = true
          · simp [List.filter_cons, hd, hb]
          · simp only [Bool.not_eq_true] at hb
            simp [List.filter_cons, hd, hb]
    · rw [if_neg hd] at h
      have := ih _ _ h
      simp only [Bool.not_eq_true] at hd
      simp [List.filter_cons, hd, this]

theorem buildLoop_mem_step (registry : String) (options : cloudBuildOptions)
    (sT fT : List String) (dirs : String → Bool) :
    ∀ (vs : List Version) (ai : List String) (steps : List imageBuildTemplateData)
      (v : Version),
      buildLoop registry options sT fT dirs vs = .ok (ai, steps) →
      v ∈ vs → dirs v.dir = true →
      ∃ contrib step, compileVersion registry options sT fT v = .ok (contrib, step) ∧
        step ∈ steps := by
  intro vs
  induction vs with
  | nil =>
    intro ai steps v _ hmem
    cases hmem
  | cons v0 rest ih =>
    intro ai steps v h hmem hdir
    simp only [buildLoop] at h
    rcases List.mem_cons.mp hmem with heq | hmem2
    · subst heq
      rw [if_pos hdir] at h
      split at h
      · cases h
      next contrib step hcv =>
        split at h
        · cases h
        next restImages restSteps hrec =>
          cases h
          exact ⟨contrib, step, hcv, List.mem_cons_self _ _⟩
    · by_cases hd0 : dirs v0.dir = true
      · rw [if_pos hd0] at h
        split at h
        · cases h
        next contrib step hcv =>
          split at h
          · cases h
          next restImages restSteps hrec =>
            cases h
            obtain ⟨c, s, hcv2, hsmem⟩ := ih _ _ v hrec hmem2 hdir
            exact ⟨c, s, hcv2, List.mem_cons_of_mem _ hsmem⟩
      · rw [if_neg hd0] at h
        exact ih _ _ v h hmem2 hdir

theorem buildLoop_stale (registry : String) (options : cloudBuildOptions)
    (sT fT : List String) (dirs : String → Bool) :
    ∀ (vs : List Version) (v : Version) (msg0 : String),
      v ∈ vs → dirs v.dir = true →
      compileVersion registry options sT fT v = .error msg0 →
      ∃ msg, buildLoop registry options sT fT dirs vs = .error msg := by
  intro vs
  induction vs with
  | nil =>
    intro v msg0 hmem
    cases hmem
  | cons v0 rest ih =>
    intro v msg0 hmem hdir herr
    simp only [buildLoop]
    rcases List.mem_cons.mp hmem with heq | hmem2
    · subst heq
      rw [if_pos hdir, herr]
      exact ⟨msg0, rfl⟩
    · by_cases hd0 : dirs v0.dir = true
      · rw [if_pos hd0]
        match hcv : compileVersion registry options sT fT v0 with
        | .error e => exact ⟨e, rfl⟩
        | .ok (contrib, step) =>
          obtain ⟨msg, hmsg⟩ := ih v msg0 hmem2 hdir herr
          rw [hmsg]
          exact ⟨msg, rfl⟩
      · rw [if_neg hd0]
        exact ih v msg0 hmem2 hdir herr

theorem compileVersion_filterError (registry : String)
    (options : cloudBuildOptions) (sT fT : List String) (v : Version)
    (msg : String) (h : filterTests sT fT v = .error msg) :
    compileVersion registry options sT fT v = .error msg := by
  unfold compileVersion
  rw [h]

theorem imagesOf_cons (registry : String) (options : cloudBuildOptions)
    (v : Version) (t0 : String) (ts : List String) (h : v.tags = t0 :: ts) :
    ∃ r, imagesOf registry options v = mkImage registry v.repo t0 :: r := by
  unfold imagesOf
  rw [h]
  cases options.firstTagOnly <;> simp

theorem imagesOf_firstTagOnly (registry : String) (options : cloudBuildOptions)
    (v : Version) (t0 : String) (ts : List String)
    (hf : options.firstTagOnly = true) (h : v.tags = t0 :: ts) :
    imagesOf registry options v = [mkImage registry v.repo t0] := by
  unfold imagesOf
  rw [h, hf]
  simp

theorem renderBuildStep_id (b : imageBuildTemplateData) :
    (renderBuildStep true b).id = some (schedulingId b.tag) := by
  unfold renderBuildStep
  by_cases hb : b.builder = true
  · rw [if_pos hb]
    rfl
  · rw [if_neg hb]
    by_cases hbi : b.builderImage = ""
    · rw [if_neg (not_not_intro hbi)]
      rfl
    · rw [if_pos hbi]
      rfl

/-- Unpacking `newCloudBuildTemplateData` on success: the loop succeeded and
the result record is assembled from the loop output and the options. -/
theorem newCloudBuildTemplateData_ok (registry : String) (spec : Spec)
    (options : cloudBuildOptions)
    (tE sE fE : List DirEntry) (d : cloudBuildTemplateData)
    (h : newCloudBuildTemplateData registry spec options tE sE fE = .ok d) :
    ∃ ai ib,
      buildLoop registry options (catalogStructureTests options tE sE)
          (catalogFunctionalTests options fE) (selectedDirs spec options)
          spec.versions = .ok (ai, ib) ∧
      d = { requireNewTags := options.requireNewTags
            parallel := shouldParallelize options spec.versions.length
              (catalogFunctionalTests options fE).length
            imageBuilds := ib
            allImages := ai
            timeoutSeconds := options.timeoutSeconds
            machineType := options.machineType } := by
  unfold newCloudBuildTemplateData at h
  dsimp only at h
  cases hbl : buildLoop registry options (catalogStructureTests options tE sE)
      (catalogFunctionalTests options fE) (selectedDirs spec options)
      spec.versions with
  | error e =>
    rw [hbl] at h
    exact Except.noConfusion h
  | ok q =>
    obtain ⟨ai, ib⟩ := q
    rw [hbl] at h
    exact ⟨ai, ib, rfl, (Except.ok.inj h).symm⟩

theorem newCloudBuildTemplateData_error (registry : String) (spec : Spec)
    (options : cloudBuildOptions) (tE sE fE : List DirEntry) (msg : String)
    (h : buildLoop registry options (catalogStructureTests options tE sE)
        (catalogFunctionalTests options fE) (selectedDirs spec options)
        spec.versions = .error msg) :
    newCloudBuildTemplateData registry spec options tE sE fE = .error msg := by
  unfold newCloudBuildTemplateData
  dsimp only
  rw [h]

/-! ### Claim theorems -/

/-- C1: the plan-wide scheduling mode is parallel if and only if the
force-parallel option is set, or the enable-parallel option is set and the
number of image definitions in the manifest exceeds 1 or the number of
discovered functional tests exceeds 1. -/
theorem C1_planParallelIff (registry : String) (spec : Spec)
    (options : cloudBuildOptions) (tE sE fE : List DirEntry)
    (d : cloudBuildTemplateData)
    (h : newCloudBuildTemplateData registry spec options tE sE fE = .ok d) :
    d.parallel = true ↔
      options.forceParallel = true ∨
        (options.enableParallel = true ∧
          (1 < spec.versions.length ∨
            1 < (catalogFunctionalTests options fE).length)) := by
  obtain ⟨ai, ib, hbl, hd⟩ := newCloudBuildTemplateData_ok _ _ _ _ _ _ _ h
  subst hd
  show shouldParallelize options spec.versions.length
      (catalogFunctionalTests options fE).length = true ↔ _
  unfold shouldParallelize
  cases hfp : options.forceParallel <;> cases hep : options.enableParallel <;> simp

/-- C1 witness: with `enable_parallel` set and two image definitions the
compiled plan is parallel. -/
theorem C1_planParallelIff_witness :
    (newCloudBuildTemplateData "gcr.io/proj" specW1 optsW1 [] [] [] = .ok dW1) ∧
    (dW1.parallel = true ↔
      optsW1.forceParallel = true ∨
        (optsW1.enableParallel = true ∧
          (1 < specW1.versions.length ∨
            1 < (catalogFunctionalTests optsW1 []).length))) :=
  ⟨by rfl, C1_planParallelIff "gcr.io/proj" specW1 optsW1 [] [] [] dW1 (by rfl)⟩

/-- C2 counterexample: a manifest whose only image definition excludes the
nonexistent test `C`, compiled with a directory filter that does not select
that image's directory, compiles successfully instead of failing. -/
theorem C2_staleExclusionSkipped_cex :
    (∃ v, v ∈ specC2.versions ∧ "C" ∈ v.excludeTests ∧
      (workspacePref ++ "C") ∉
        catalogStructureTests optsC2 [] [] ++ catalogFunctionalTests optsC2 []) ∧
    newCloudBuildTemplateData "gcr.io/proj" specC2 optsC2 [] [] [] = .ok dC2 :=
  ⟨⟨vC2, by decide, by decide, by decide⟩, by rfl⟩

/-- C2 (amended): for every image definition selected by the directory filter
whose test-exclusion list contains a name whose resolved catalog path is not
present in the discovered test catalog, compilation fails with a fatal error,
producing no plan. -/
theorem C2_staleExclusionFatal (registry : String) (spec : Spec)
    (options : cloudBuildOptions) (tE sE fE : List DirEntry)
    (v : Version) (e : String)
    (hv : v ∈ spec.versions)
    (hsel : selectedDirs spec options v.dir = true)
    (he : e ∈ v.excludeTests)
    (habs : (workspacePref ++ e) ∉
      catalogStructureTests options tE sE ++ catalogFunctionalTests options fE) :
    ∃ msg, newCloudBuildTemplateData registry spec options tE sE fE = .error msg := by
  obtain ⟨m1, hft⟩ := filterTests_stale _ _ v e he habs
  have hcv := compileVersion_filterError registry options _ _ v m1 hft
  obtain ⟨m2, hbl⟩ :=
    buildLoop_stale registry options _ _ (selectedDirs spec options)
      spec.versions v m1 hv hsel hcv
  exact ⟨m2, newCloudBuildTemplateData_error _ _ _ _ _ _ m2 hbl⟩

/-- C2 witness: the same stale exclusion on a selected image definition makes
the whole compilation fail. -/
theorem C2_staleExclusionFatal_witness :
    vW2 ∈ specW2.versions ∧ selectedDirs specW2 optsW2 vW2.dir = true ∧
    "C" ∈ vW2.excludeTests ∧
    (workspacePref ++ "C") ∉
      catalogStructureTests optsW2 [] [] ++ catalogFunctionalTests optsW2 [] ∧
    ∃ msg, newCloudBuildTemplateData "gcr.io/proj" specW2 optsW2 [] [] [] =
      .error msg :=
  ⟨by decide, by decide, by decide, by decide,
    C2_staleExclusionFatal "gcr.io/proj" specW2 optsW2 [] [] [] vW2 "C"
      (by decide) (by decide) (by decide) (by decide)⟩

/-- C3 counterexample: a builder-only image definition whose directory the
filter does not select gets no build step at all (while compilation
succeeds), so "a build step is still produced for it" fails for some
option combinations. -/
theorem C3_builderOnly_cex :
    vC3 ∈ specC3.versions ∧ vC3.builder = true ∧
    newCloudBuildTemplateData "gcr.io/proj" specC3 optsC3 [] [] [] = .ok dC3 ∧
    ¬∃ b, b ∈ dC3.imageBuilds ∧ b.directory = vC3.dir := by
  refine ⟨by decide, rfl, by rfl, ?_⟩
  rintro ⟨b, hb, _⟩
  cases hb

/-- C3 (amended): a builder-only image definition never contributes any name
to the shippable-image list (every shippable name comes from a non-builder
selected definition), and a builder-only definition selected by the
directory filter still gets a build step in a successful compilation. -/
theorem C3_builderOnlyShippable (registry : String) (spec : Spec)
    (options : cloudBuildOptions) (tE sE fE : List DirEntry)
    (d : cloudBuildTemplateData)
    (h : newCloudBuildTemplateData registry spec options tE sE fE = .ok d) :
    (∀ img, img ∈ d.allImages → ∃ v, v ∈ spec.versions ∧
      selectedDirs spec options v.dir = true ∧ v.builder = false ∧
      img ∈ imagesOf registry options v) ∧
    (∀ v, v ∈ spec.versions → v.builder = true →
      selectedDirs spec options v.dir = true →
      ∃ b, b ∈ d.imageBuilds ∧ b.directory = v.dir ∧ b.builder = true) := by
  obtain ⟨ai, ib, hbl, hd⟩ := newCloudBuildTemplateData_ok _ _ _ _ _ _ _ h
  subst hd
  constructor
  · intro img himg
    dsimp only at himg
    rw [buildLoop_ok_allImages _ _ _ _ _ _ _ _ hbl] at himg
    obtain ⟨v, hvmem, himg2⟩ := List.mem_flatMap.mp himg
    obtain ⟨hv, hcond⟩ := List.mem_filter.mp hvmem
    rw [Bool.and_eq_true] at hcond
    obtain ⟨hdir, hnb⟩ := hcond
    have hbf : v.builder = false := by
      revert hnb
      cases v.builder <;> simp
    exact ⟨v, hv, hdir, hbf, himg2⟩
  · intro v hv hb hdir
    obtain ⟨c, s, hcv, hsmem⟩ :=
      buildLoop_mem_step _ _ _ _ _ _ _ _ v hbl hv hdir
    obtain ⟨hdir2, hbld, _⟩ := compileVersion_ok _ _ _ _ _ _ _ hcv
    exact ⟨s, hsmem, hdir2, by rw [hbld, hb]⟩

/-- C3 witness: a selected builder-only definition is absent from the
shippable list yet present as a build step. -/
theorem C3_builderOnlyShippable_witness :
    (newCloudBuildTemplateData "gcr.io/proj" specW3 optsW3 [] [] [] = .ok dW3) ∧
    (∀ img, img ∈ dW3.allImages → ∃ v, v ∈ specW3.versions ∧
      selectedDirs specW3 optsW3 v.dir = true ∧ v.builder = false ∧
      img ∈ imagesOf "gcr.io/proj" optsW3 v) ∧
    (∀ v, v ∈ specW3.versions → v.builder = true →
      selectedDirs specW3 optsW3 v.dir = true →
      ∃ b, b ∈ dW3.imageBuilds ∧ b.directory = v.dir ∧ b.builder = true) :=
  ⟨by rfl, C3_builderOnlyShippable "gcr.io/proj" specW3 optsW3 [] [] [] dW3 (by rfl)⟩

/-- C4: with a non-empty directory filter the compiled plan has exactly one
build step per image definition whose directory is selected, in manifest
order, and none for the others; with an empty filter every definition yields
a build step. -/
theorem C4_directoryFilter (registry : String) (spec : Spec)
    (options : cloudBuildOptions) (tE sE fE : List DirEntry)
    (d : cloudBuildTemplateData)
    (h : newCloudBuildTemplateData registry spec options tE sE fE = .ok d) :
    (options.directories ≠ [] →
      d.imageBuilds.map imageBuildTemplateData.directory =
        (spec.versions.filter fun v => options.directories.contains v.dir).map
          Version.dir) ∧
    (options.directories = [] →
      d.imageBuilds.map imageBuildTemplateData.directory =
        spec.versions.map Version.dir) := by
  obtain ⟨ai, ib, hbl, hd⟩ := newCloudBuildTemplateData_ok _ _ _ _ _ _ _ h
  subst hd
  have hdirs := buildLoop_ok_directories _ _ _ _ _ _ _ _ hbl
  constructor
  · intro hne
    dsimp only
    rw [hdirs]
    have hsel : selectedDirs spec options =
        fun dd => options.directories.contains dd := by
      unfold selectedDirs
      rw [if_pos (List.length_pos.mpr hne)]
    rw [hsel]
  · intro heq
    dsimp only
    rw [hdirs]
    have h0 : ¬(0 < options.directories.length) := by
      rw [heq]
      simp
    have hsel : selectedDirs spec options =
        fun dd => (spec.versions.map Version.dir).contains dd := by
      unfold selectedDirs
      rw [if_neg h0]
    rw [hsel]
    have hall : spec.versions.filter
        (fun v => (spec.versions.map Version.dir).contains v.dir) =
        spec.versions := by
      rw [List.filter_eq_self]
      intro v hv
      exact List.elem_iff.mpr (List.mem_map_of_mem _ hv)
    rw [hall]

/-- C4 witness: selecting directory `b` out of a two-directory manifest
yields exactly the step for `b`. -/
theorem C4_directoryFilter_witness :
    (newCloudBuildTemplateData "gcr.io/proj" specW4 optsW4 [] [] [] = .ok dW4) ∧
    (optsW4.directories ≠ [] →
      dW4.imageBuilds.map imageBuildTemplateData.directory =
        (specW4.versions.filter fun v => optsW4.directories.contains v.dir).map
          Version.dir) ∧
    (optsW4.directories = [] →
      dW4.imageBuilds.map imageBuildTemplateData.directory =
        specW4.versions.map Version.dir) :=
  ⟨by rfl, C4_directoryFilter "gcr.io/proj" specW4 optsW4 [] [] [] dW4 (by rfl)⟩

/-- C5 counterexample: a builder-flagged image definition that declares a
builder-image reference is emitted as a plain docker build whose parallel
wait-condition is `['-']`, not the builder image's scheduling identifier. -/
theorem C5_builderImage_cex :
    vC5.builder = true ∧ vC5.builderImage ≠ "" ∧
    compileVersion "gcr.io/proj" optsC5 [] [] vC5 = .ok ([], bC5) ∧
    (renderBuildStep true bC5).waitFor = some ["-"] ∧
    ¬∃ w, (renderBuildStep true bC5).waitFor = some w ∧
      schedulingId bC5.builderImage ∈ w := by
  refine ⟨rfl, by decide, by rfl, by rfl, ?_⟩
  rintro ⟨w, hw, hmem⟩
  have hw2 : (["-"] : List String) = w := Option.some.inj hw
  rw [← hw2] at hmem
  revert hmem
  decide

/-- C5 (amended): an image definition declaring a builder-image reference
always gets the builder-derived canonical tag; and when it is not flagged
builder-only, its emitted build step under parallel scheduling runs the
builder image and waits on the builder image's scheduling identifier. -/
theorem C5_builderImageStep :
    (∀ (registry : String) (options : cloudBuildOptions)
        (sT fT : List String) (v : Version) (contrib : List String)
        (step : imageBuildTemplateData),
      v.builderImage ≠ "" →
      compileVersion registry options sT fT v = .ok (contrib, step) →
      step.tag = v.imageNameFromBuilder ∧
        step.builderImage = registry ++ "/" ++ v.builderImage) ∧
    (∀ (d : cloudBuildTemplateData) (b : imageBuildTemplateData),
      d.parallel = true → b ∈ d.imageBuilds → b.builder = false →
      b.builderImage ≠ "" →
      ∃ s, s ∈ buildSteps d ∧ s.name = b.builderImage ∧
        s.waitFor = some [schedulingId b.builderImage] ∧
        s.id = some (schedulingId b.tag)) := by
  constructor
  · intro registry options sT fT v contrib step hbi h
    have hc := compileVersion_ok_builderImage registry options sT fT v contrib step hbi h
    exact ⟨hc.1, hc.2.1⟩
  · intro d b hpar hmem hb hbi
    refine ⟨renderBuildStep d.parallel b, List.mem_map_of_mem _ hmem, ?_⟩
    rw [hpar]
    unfold renderBuildStep
    rw [if_neg (by rw [hb]; exact Bool.false_ne_true), if_pos hbi]
    exact ⟨rfl, rfl, rfl⟩

/-- C5 witness: a concrete non-builder definition with a builder image gets
the builder-derived tag and a wait-condition on the builder's identifier. -/
theorem C5_builderImageStep_witness :
    (vW5.builderImage ≠ "" ∧
      compileVersion "gcr.io/proj" optsW5 [] [] vW5 =
        .ok (["gcr.io/proj/foo:1.0"], bW5) ∧
      bW5.tag = vW5.imageNameFromBuilder ∧
      bW5.builderImage = "gcr.io/proj" ++ "/" ++ vW5.builderImage) ∧
    (dW5.parallel = true ∧ bW5 ∈ dW5.imageBuilds ∧ bW5.builder = false ∧
      bW5.builderImage ≠ "" ∧
      ∃ s, s ∈ buildSteps dW5 ∧ s.name = bW5.builderImage ∧
        s.waitFor = some [schedulingId bW5.builderImage] ∧
        s.id = some (schedulingId bW5.tag)) :=
  ⟨⟨by decide, by rfl,
      C5_builderImageStep.1 "gcr.io/proj" optsW5 [] [] vW5
        ["gcr.io/proj/foo:1.0"] bW5 (by decide) (by rfl)⟩,
    ⟨rfl, by decide, rfl, by decide,
      C5_builderImageStep.2 dW5 bW5 rfl (by decide) rfl (by decide)⟩⟩

/-- C6 counterexample: with first-tag-only set, a definition with an empty
tag list and a builder-image reference still yields a build step, but zero
fully-qualified names enter the shippable/alias expansion, and the step's
tag is the builder-derived name, not a first-tag name. -/
theorem C6_firstTagOnly_cex :
    optsC6.firstTagOnly = true ∧
    compileVersion "gcr.io/proj" optsC6 [] [] vC6 = .ok ([], bC6) ∧
    imagesOf "gcr.io/proj" optsC6 vC6 = [] ∧
    ¬(imagesOf "gcr.io/proj" optsC6 vC6).length = 1 := by
  exact ⟨rfl, by rfl, by rfl, by decide⟩

/-- C6 (amended): with first-tag-only set, every definition with at least
one tag that the resolver accepts yields a build step; exactly one
fully-qualified name (from the first tag) is generated, entering the
shippable list (unless builder-only); the step targets the first tag's name
when no builder-image reference is declared, and otherwise targets the
builder-derived name with the single first-tag name as its alias. -/
theorem C6_firstTagOnly (registry : String) (options : cloudBuildOptions)
    (sT fT : List String) (v : Version) (p : List String × List String)
    (t0 : String) (ts : List String)
    (hf : options.firstTagOnly = true) (htags : v.tags = t0 :: ts)
    (hft : filterTests sT fT v = .ok p) :
    imagesOf registry options v = [mkImage registry v.repo t0] ∧
    ∃ contrib step,
      compileVersion registry options sT fT v = .ok (contrib, step) ∧
      contrib = (if !v.builder then [mkImage registry v.repo t0] else []) ∧
      (v.builderImage = "" →
        step.tag = mkImage registry v.repo t0 ∧ step.aliases = []) ∧
      (v.builderImage ≠ "" →
        step.tag = v.imageNameFromBuilder ∧
        step.aliases = [mkImage registry v.repo t0]) := by
  have himg := imagesOf_firstTagOnly registry options v t0 ts hf htags
  refine ⟨himg, ?_⟩
  obtain ⟨pS, pF⟩ := p
  unfold compileVersion
  rw [hft]
  dsimp only
  rw [himg]
  by_cases hbi : v.builderImage = ""
  · rw [if_neg (not_not_intro hbi)]
    exact ⟨_, _, rfl, rfl, fun _ => ⟨rfl, rfl⟩, fun hc => absurd hbi hc⟩
  · rw [if_pos hbi]
    exact ⟨_, _, rfl, rfl, fun hc => absurd hc hbi, fun _ => ⟨rfl, rfl⟩⟩

/-- C6 witness: a two-tag definition under first-tag-only generates exactly
the one first-tag name and keeps its build step. -/
theorem C6_firstTagOnly_witness :
    (optsW6.firstTagOnly = true ∧ vW6.tags = "1.0" :: ["latest"] ∧
      filterTests [] [] vW6 = .ok ([], [])) ∧
    (imagesOf "gcr.io/proj" optsW6 vW6 =
      [mkImage "gcr.io/proj" vW6.repo "1.0"] ∧
    ∃ contrib step,
      compileVersion "gcr.io/proj" optsW6 [] [] vW6 = .ok (contrib, step) ∧
      contrib =
        (if !vW6.builder then [mkImage "gcr.io/proj" vW6.repo "1.0"] else []) ∧
      (vW6.builderImage = "" →
        step.tag = mkImage "gcr.io/proj" vW6.repo "1.0" ∧ step.aliases = []) ∧
      (vW6.builderImage ≠ "" →
        step.tag = vW6.imageNameFromBuilder ∧
        step.aliases = [mkImage "gcr.io/proj" vW6.repo "1.0"])) :=
  ⟨⟨rfl, rfl, by rfl⟩,
    C6_firstTagOnly "gcr.io/proj" optsW6 [] [] vW6 ([], []) "1.0" ["latest"]
      rfl rfl (by rfl)⟩

/-- C7: on success the resolver returns exactly the catalog tests whose
resolved path is not named by the exclusion list, in original catalog order,
and an empty exclusion list returns the full catalog unchanged. -/
theorem C7_filterTests (sT fT : List String) (v : Version)
    (oS oF : List String)
    (h : filterTests sT fT v = .ok (oS, oF)) :
    oS = sT.filter (notExcluded v) ∧ oF = fT.filter (notExcluded v) ∧
    (v.excludeTests = [] → oS = sT ∧ oF = fT) := by
  obtain ⟨h1, h2⟩ := filterTests_ok sT fT v oS oF h
  refine ⟨h1, h2, ?_⟩
  intro hex
  constructor
  · rw [h1]
    apply List.filter_eq_self.mpr
    intro t _
    simp [notExcluded, hex]
  · rw [h2]
    apply List.filter_eq_self.mpr
    intro t _
    simp [notExcluded, hex]

/-- C7 witness: excluding `tests/a_test.yaml` from a catalog of two structure
tests and one functional test keeps exactly the other tests, in order. -/
theorem C7_filterTests_witness :
    (filterTests sTW7 fTW7 vW7 =
      .ok (["/workspace/tests/b_test.yaml"], fTW7)) ∧
    (["/workspace/tests/b_test.yaml"] = sTW7.filter (notExcluded vW7) ∧
      fTW7 = fTW7.filter (notExcluded vW7) ∧
      (vW7.excludeTests = [] →
        ["/workspace/tests/b_test.yaml"] = sTW7 ∧ fTW7 = fTW7)) :=
  ⟨by rfl, C7_filterTests sTW7 fTW7 vW7 _ _ (by rfl)⟩

/-- C8 counterexample: in a parallel plan whose image has a structure test,
the alias step's wait-conditions cover only the build step; the structure
test step has no scheduling identifier at all, so the alias cannot (and does
not) wait on every test step of the image. -/
theorem C8_aliasWaits_cex :
    aliasSteps dC8 =
      [⟨"gcr.io/cloud-builders/docker", ["tag", "p", "q"],
        some ["image-p"], none⟩] ∧
    stC8 ∈ testSteps dC8 ∧ stC8.id = none ∧
    ¬(∀ ts, ts ∈ testSteps dC8 →
        ∃ s w i, s ∈ aliasSteps dC8 ∧ s.waitFor = some w ∧
          ts.id = some i ∧ i ∈ w) := by
  refine ⟨by rfl, by decide, rfl, ?_⟩
  intro hall
  obtain ⟨s, w, i, _, _, hid, _⟩ := hall stC8 (by decide)
  exact Option.noConfusion hid

/-- C8 (amended): under parallel scheduling, each alias step waits on the
image's primary build step identifier followed by the identifiers of all of
that image's functional test steps; the build step carries that primary
identifier, and every functional test step of the image carries an
identifier that appears in the alias's wait list. -/
theorem C8_aliasWaits (d : cloudBuildTemplateData) (b : imageBuildTemplateData)
    (a : String) (hpar : d.parallel = true) (hb : b ∈ d.imageBuilds)
    (ha : a ∈ b.aliases) :
    (∃ s, s ∈ aliasSteps d ∧ s.name = "gcr.io/cloud-builders/docker" ∧
      s.args = ["tag", b.tag, a] ∧
      s.waitFor = some (schedulingId b.tag ::
        (List.range b.functionalTests.length).map (testStepId b.tag))) ∧
    (∃ bs, bs ∈ buildSteps d ∧ bs.id = some (schedulingId b.tag)) ∧
    (∀ (j : Nat) (t : String), b.functionalTests[j]? = some t →
      ∃ ts, ts ∈ functionalTestSteps d ∧
        ts.id = some (testStepId b.tag j) ∧
        testStepId b.tag j ∈ (schedulingId b.tag ::
          (List.range b.functionalTests.length).map (testStepId b.tag))) := by
  refine ⟨?_, ?_, ?_⟩
  · refine ⟨_, List.mem_flatMap.mpr ⟨b, hb, List.mem_map_of_mem _ ha⟩,
      rfl, rfl, ?_⟩
    dsimp only
    rw [hpar]
    rfl
  · exact ⟨renderBuildStep d.parallel b, List.mem_map_of_mem _ hb,
      by rw [hpar]; exact renderBuildStep_id b⟩
  · intro j t hjt
    obtain ⟨i, hi⟩ := List.getElem?_of_mem hb
    have hienum : (i, b) ∈ d.imageBuilds.enum :=
      List.mk_mem_enum_iff_getElem?.mpr hi
    have hjenum : (j, t) ∈ b.functionalTests.enum :=
      List.mk_mem_enum_iff_getElem?.mpr hjt
    refine ⟨_,
      List.mem_flatMap.mpr ⟨(i, b), hienum, List.mem_map_of_mem _ hjenum⟩,
      ?_, ?_⟩
    · dsimp only
      rw [hpar]
      rfl
    · apply List.mem_cons_of_mem
      apply List.mem_map_of_mem
      exact List.mem_range.mpr (List.getElem?_eq_some.mp hjt).fst

/-- C8 witness: a concrete parallel plan with one alias and one functional
test, where the alias waits on the build step and the test step. -/
theorem C8_aliasWaits_witness :
    (dW8.parallel = true ∧ bW8 ∈ dW8.imageBuilds ∧
      "gcr.io/proj/foo:latest" ∈ bW8.aliases) ∧
    ((∃ s, s ∈ aliasSteps dW8 ∧ s.name = "gcr.io/cloud-builders/docker" ∧
      s.args = ["tag", bW8.tag, "gcr.io/proj/foo:latest"] ∧
      s.waitFor = some (schedulingId bW8.tag ::
        (List.range bW8.functionalTests.length).map (testStepId bW8.tag))) ∧
    (∃ bs, bs ∈ buildSteps dW8 ∧ bs.id = some (schedulingId bW8.tag)) ∧
    (∀ (j : Nat) (t : String), bW8.functionalTests[j]? = some t →
      ∃ ts, ts ∈ functionalTestSteps dW8 ∧
        ts.id = some (testStepId bW8.tag j) ∧
        testStepId bW8.tag j ∈ (schedulingId bW8.tag ::
          (List.range bW8.functionalTests.length).map (testStepId bW8.tag)))) :=
  ⟨⟨rfl, by decide, by decide⟩,
    C8_aliasWaits dW8 bW8 "gcr.io/proj/foo:latest" rfl (by decide) (by decide)⟩

/-- C9: under parallel scheduling the emitted machine class is always
`E2_HIGHCPU_8` whatever machine-class option was supplied; when sequential
the supplied machine class is emitted when non-empty and omitted otherwise;
and a zero timeout emits no timeout constraint. -/
theorem C9_optionsRender (registry : String) (spec : Spec)
    (options : cloudBuildOptions) (tE sE fE : List DirEntry)
    (d : cloudBuildTemplateData)
    (h : newCloudBuildTemplateData registry spec options tE sE fE = .ok d) :
    (d.parallel = true → emittedMachineType d = some "E2_HIGHCPU_8") ∧
    (d.parallel = false →
      emittedMachineType d =
        (if options.machineType = "" then none else some options.machineType)) ∧
    (options.timeoutSeconds = 0 → emittedTimeout d = none) := by
  obtain ⟨ai, ib, hbl, hd⟩ := newCloudBuildTemplateData_ok _ _ _ _ _ _ _ h
  have hm : d.machineType = options.machineType := by rw [hd]
  have ht : d.timeoutSeconds = options.timeoutSeconds := by rw [hd]
  refine ⟨?_, ?_, ?_⟩
  · intro hp
    unfold emittedMachineType
    rw [if_pos hp]
  · intro hp
    unfold emittedMachineType
    rw [if_neg (by rw [hp]; exact Bool.false_ne_true), hm]
    by_cases hmt : options.machineType = ""
    · rw [if_neg (not_not_intro hmt), if_pos hmt]
    · rw [if_pos hmt, if_neg hmt]
  · intro h0
    unfold emittedTimeout
    rw [ht]
    rw [if_pos h0]

/-- C9 witness: forcing parallel with machine type `N1_HIGHCPU_8` supplied
still emits `E2_HIGHCPU_8`, and a zero timeout emits nothing. -/
theorem C9_optionsRender_witness :
    (newCloudBuildTemplateData "gcr.io/proj" specW9 optsW9 [] [] [] = .ok dW9) ∧
    ((dW9.parallel = true → emittedMachineType dW9 = some "E2_HIGHCPU_8") ∧
    (dW9.parallel = false →
      emittedMachineType dW9 =
        (if optsW9.machineType = "" then none else some optsW9.machineType)) ∧
    (optsW9.timeoutSeconds = 0 → emittedTimeout dW9 = none)) :=
  ⟨by rfl, C9_optionsRender "gcr.io/proj" specW9 optsW9 [] [] [] dW9 (by rfl)⟩

/-- C10: for a selected definition without a builder-image reference the
compiler reads the first generated image name: with an empty tag list the
access fails (aborting compilation), and on success the definition had at
least one tag and the step's tag is the name generated from the first tag. -/
theorem C10_tagAccess (registry : String) (options : cloudBuildOptions)
    (sT fT : List String) (v : Version) (p : List String × List String)
    (hbi : v.builderImage = "") (hft : filterTests sT fT v = .ok p) :
    (v.tags = [] →
      compileVersion registry options sT fT v =
        .error "runtime error: index out of range") ∧
    (∀ contrib step,
      compileVersion registry options sT fT v = .ok (contrib, step) →
      v.tags ≠ [] ∧ ∃ t0 ts, v.tags = t0 :: ts ∧
        step.tag = mkImage registry v.repo t0) := by
  constructor
  · intro htags
    exact compileVersion_emptyTags registry options sT fT v p hbi htags hft
  · intro contrib step h
    obtain ⟨i0, ir, himg, htag, _, _⟩ :=
      compileVersion_ok_noBuilderImage registry options sT fT v contrib step hbi h
    cases htags : v.tags with
    | nil =>
      have hempty : imagesOf registry options v = [] := by
        unfold imagesOf
        rw [htags]
        cases options.firstTagOnly <;> simp
      rw [hempty] at himg
      exact List.noConfusion himg
    | cons t0 ts =>
      obtain ⟨r, hr⟩ := imagesOf_cons registry options v t0 ts htags
      rw [hr] at himg
      obtain ⟨h1, h2⟩ := List.cons.inj himg
      refine ⟨by simp [htags], t0, ts, rfl, ?_⟩
      rw [htag]
      exact h1.symm

/-- C10 witness: a selected definition with no tags and no builder image
makes the compilation die with the out-of-range access. -/
theorem C10_tagAccess_witness :
    (vW10.builderImage = "" ∧ filterTests [] [] vW10 = .ok ([], []) ∧
      vW10.tags = []) ∧
    compileVersion "gcr.io/proj" optsW10 [] [] vW10 =
      .error "runtime error: index out of range" :=
  ⟨⟨rfl, by rfl, rfl⟩,
    (C10_tagAccess "gcr.io/proj" optsW10 [] [] vW10 ([], []) rfl (by rfl)).1 rfl⟩

end CloudBuild
